import Mathlib

/-!
Verification of the ohm occupancy-map engine against its specification.

The definitions below are shallow embeddings of the C++ sources:

* `src/ohm/CovarianceVoxel.h` — the NDT covariance kernel
  (`initialiseCovariance`, `solveTriangular`, `unpackCovariance`,
  `calculateHitWithCovariance`, `calculateMissNdt`);
* `src/ohm/private/OccupancyMapDetail.cpp` — `moveKeyAlongAxis`;
* `src/ohm/Heightmap.cpp` — the supporting-voxel selection of
  `findNearestSupportingVoxel`, the `findGround` column walk and the
  heightmap write step of `buildHeightmapT`;
* `src/ohm/serialise/MapSerialiseV0.cpp` — `v0::loadChunk`;
* `src/ohm/VoxelIncidentCompute.h` — `updateIncidentNormalV3`.

Machine `double` arithmetic is idealised as exact real arithmetic (`ℝ`);
purely branch-and-compare values are kept over `ℚ` or `ℤ`/`ℕ` so that the
corresponding functions stay computable.  C `int` arithmetic uses `Int.tdiv`
and `Int.tmod`, which share the truncation-toward-zero semantics of the C
division and remainder operators.
-/

namespace OhmSpec

/-! ### Vector model: glm dvec3 / covvec3 (CovarianceVoxel.h lines 46-60) -/

/-- A 3D real vector, modelling `glm::dvec3` (`covvec3` on the CPU path). -/
structure V3 where
  x : ℝ
  y : ℝ
  z : ℝ

namespace V3

instance : Add V3 := ⟨fun a b => ⟨a.x + b.x, a.y + b.y, a.z + b.z⟩⟩
instance : Sub V3 := ⟨fun a b => ⟨a.x - b.x, a.y - b.y, a.z - b.z⟩⟩
instance : SMul ℝ V3 := ⟨fun s v => ⟨s * v.x, s * v.y, s * v.z⟩⟩
instance : Zero V3 := ⟨⟨0, 0, 0⟩⟩

end V3

/-- `covdot` from CovarianceVoxel.h: the dot product. -/
def covdot (a b : V3) : ℝ :=
  a.x * b.x + a.y * b.y + a.z * b.z

/-- `covlength2` from CovarianceVoxel.h: the squared vector length. -/
def covlength2 (v : V3) : ℝ :=
  covdot v v

/-- `covnormalize` from CovarianceVoxel.h (`glm::normalize`): divide by length. -/
noncomputable def covnormalize (v : V3) : V3 :=
  (1 / Real.sqrt (covlength2 v)) • v

/-! ### Packed covariance (CovarianceVoxel.h) -/

/-- The packed lower-triangular square-root covariance `CovarianceVoxel`:
`trianglar_covariance[0..5]` as six real fields.  Storage order (source
comment at `solveTriangular`):
row 0 = `(tc0, 0, 0)`, row 1 = `(tc1, tc2, 0)`, row 2 = `(tc3, tc4, tc5)`. -/
structure CovarianceVoxel where
  tc0 : ℝ
  tc1 : ℝ
  tc2 : ℝ
  tc3 : ℝ
  tc4 : ℝ
  tc5 : ℝ

/-- `initialiseCovariance` (CovarianceVoxel.h lines 72-78): the packed matrix
diagonal entries `tc0, tc2, tc5` are set to `sensor_noise * sensor_noise`,
off-diagonal entries to zero. -/
def initialiseCovariance (sensor_noise : ℝ) : CovarianceVoxel :=
  ⟨sensor_noise * sensor_noise, 0, sensor_noise * sensor_noise, 0, 0,
    sensor_noise * sensor_noise⟩

/-- `solveTriangular` (CovarianceVoxel.h lines 141-162): solve `M x = y` for
lower-triangular `M` stored in packed order `0; 1 2; 3 4 5`. -/
noncomputable def solveTriangular (cov : CovarianceVoxel) (y : V3) : V3 :=
  let xx := y.x / cov.tc0
  let xy := (y.y - cov.tc1 * xx) / cov.tc2
  let xz := (y.z - cov.tc3 * xx - cov.tc4 * xy) / cov.tc5
  ⟨xx, xy, xz⟩

/-! ### NDT miss update (CovarianceVoxel.h lines 285-390) -/

section
open scoped Classical

/-- `calculateMissNdt` (CovarianceVoxel.h lines 285-390).  Returns the updated
occupancy value paired with the returned point (the voxel mean on the early
branches, the maximum-likelihood point on the NDT branch).  The source guards
the final write with a NaN self-comparison `probability_update ==
probability_update`; over exact real arithmetic that comparison always holds,
so the write is unconditional here. -/
noncomputable def calculateMissNdt (cov_voxel : CovarianceVoxel) (voxel_value : ℝ)
    (sensor sample voxel_mean : V3) (point_count : ℕ)
    (uninitialised_value miss_value sensor_noise : ℝ) (sample_threshold : ℕ) :
    ℝ × V3 :=
  if voxel_value = uninitialised_value then
    -- First touch of the voxel. Apply the miss value as is.
    (miss_value, voxel_mean)
  else if point_count < sample_threshold then
    -- Too few points to resolve a gaussian; standard value update.
    (voxel_value + miss_value, voxel_mean)
  else
    let sensor_to_sample := sample - sensor
    let sensor_ray := covnormalize sensor_to_sample
    let sensor_to_mean := sensor - voxel_mean
    let a := solveTriangular cov_voxel sensor_ray
    let b_norm := solveTriangular cov_voxel sensor_to_mean
    let t := -(covdot a b_norm) / covdot a a
    let voxel_maximum_likelyhood := t • sensor_ray + sensor
    let p_x_ml_given_voxel :=
      Real.exp (-0.5 * covlength2 (solveTriangular cov_voxel
        (voxel_maximum_likelyhood - voxel_mean)))
    let sensor_noise_variance := sensor_noise * sensor_noise
    let p_x_ml_given_sample :=
      Real.exp (-0.5 * covlength2 (voxel_maximum_likelyhood - sample) /
        sensor_noise_variance)
    let scaling_factor := 1 - 1 / (1 + Real.exp miss_value)
    let probability_update :=
      0.5 - scaling_factor * p_x_ml_given_voxel * (1 - p_x_ml_given_sample)
    (voxel_value +
       Real.log (probability_update / (1 - probability_update)),
     voxel_maximum_likelyhood)

/-! ### NDT hit update (CovarianceVoxel.h lines 119-259) -/

/-- The nine entries of the sparse (4,3) matrix produced by
`unpackCovariance` (CovarianceVoxel.h lines 119-134), packed as in the
source comment: `a0 a1 a3 / . a2 a4 / . . a5 / a6 a7 a8`. -/
structure UnpackedCov where
  a0 : ℝ
  a1 : ℝ
  a2 : ℝ
  a3 : ℝ
  a4 : ℝ
  a5 : ℝ
  a6 : ℝ
  a7 : ℝ
  a8 : ℝ

/-- `unpackCovariance` (CovarianceVoxel.h lines 119-134): scale the packed
covariance by `sc_1` and append `sc_2 * sample_to_mean` as the bottom row. -/
noncomputable def unpackCovariance (cov : CovarianceVoxel) (point_count : ℕ)
    (sample_to_mean : V3) : UnpackedCov :=
  let one_on_num_pt_plus_one : ℝ := 1 / ((point_count : ℝ) + 1)
  let sc_1 : ℝ :=
    if point_count ≠ 0 then Real.sqrt ((point_count : ℝ) * one_on_num_pt_plus_one)
    else 1
  let sc_2 : ℝ := one_on_num_pt_plus_one * Real.sqrt (point_count : ℝ)
  ⟨sc_1 * cov.tc0, sc_1 * cov.tc1, sc_1 * cov.tc2, sc_1 * cov.tc3,
    sc_1 * cov.tc4, sc_1 * cov.tc5,
    sc_2 * sample_to_mean.x, sc_2 * sample_to_mean.y, sc_2 * sample_to_mean.z⟩

/-- The modified Gram-Schmidt square-root covariance update: the
`for (k = 0; k < 3; ++k)` loop of `calculateHitWithCovariance`
(CovarianceVoxel.h lines 233-256), with its constant-bound loops unrolled.
`packedDot(A, j, k)` (lines 87-99) expands to
`A[6+k]*A[6+j] + sum over i ≤ min j k of A[cf j + i]*A[cf k + i]` with
`cf = [0, 1, 3]`.  Entries of `cov` not overwritten (tc1, tc3 when
`ak0 ≤ 0`; tc4 when `ak1 ≤ 0`) keep their incoming values, exactly as the
in-place source update does. -/
noncomputable def covGramSchmidt (cov : CovarianceVoxel) (point_count : ℕ)
    (sample_to_mean : V3) : CovarianceVoxel :=
  let A := unpackCovariance cov point_count sample_to_mean
  -- k = 0: ind1 = 0, indk = 0; packedDot A 0 0 = A6*A6 + A0*A0.
  let ak0 := Real.sqrt (A.a6 * A.a6 + A.a0 * A.a0)
  if 0 < ak0 then
    let aki0 := 1 / ak0
    -- j = 1: indj = 1, indkj = 1; packedDot A 1 0 = A6*A7 + A1*A0.
    let c1 := (A.a6 * A.a7 + A.a1 * A.a0) * aki0
    let c1b := c1 * aki0
    let a7 := A.a7 - c1b * A.a6
    let a1 := A.a1 - c1b * A.a0
    -- j = 2: indj = 3, indkj = 3; packedDot A 2 0 = A6*A8 + A3*A0.
    let c3 := (A.a6 * A.a8 + A.a3 * A.a0) * aki0
    let c3b := c3 * aki0
    let a8 := A.a8 - c3b * A.a6
    let a3 := A.a3 - c3b * A.a0
    -- k = 1: ind1 = 2, indk = 1; packedDot A 1 1 = A7*A7 + A1*A1 + A2*A2.
    let ak1 := Real.sqrt (a7 * a7 + a1 * a1 + A.a2 * A.a2)
    if 0 < ak1 then
      let aki1 := 1 / ak1
      -- j = 2: indj = 3, indkj = 4;
      -- packedDot A 2 1 = A7*A8 + A3*A1 + A4*A2.
      let c4 := (a7 * a8 + a3 * a1 + A.a4 * A.a2) * aki1
      let c4b := c4 * aki1
      let a8b := a8 - c4b * a7
      let a3b := a3 - c4b * a1
      let a4b := A.a4 - c4b * A.a2
      -- k = 2: ind1 = 5; packedDot A 2 2 = A8*A8 + A3*A3 + A4*A4 + A5*A5.
      let ak2 := Real.sqrt (a8b * a8b + a3b * a3b + a4b * a4b + A.a5 * A.a5)
      ⟨ak0, c1, ak1, c3, c4, ak2⟩
    else
      let ak2 := Real.sqrt (a8 * a8 + a3 * a3 + A.a4 * A.a4 + A.a5 * A.a5)
      ⟨ak0, c1, ak1, c3, cov.tc4, ak2⟩
  else
    -- ak0 = 0: the j-loop for k = 0 is skipped; tc1, tc3 keep their values.
    let ak1 := Real.sqrt (A.a7 * A.a7 + A.a1 * A.a1 + A.a2 * A.a2)
    if 0 < ak1 then
      let aki1 := 1 / ak1
      let c4 := (A.a7 * A.a8 + A.a3 * A.a1 + A.a4 * A.a2) * aki1
      let c4b := c4 * aki1
      let a8b := A.a8 - c4b * A.a7
      let a3b := A.a3 - c4b * A.a1
      let a4b := A.a4 - c4b * A.a2
      let ak2 := Real.sqrt (a8b * a8b + a3b * a3b + a4b * a4b + A.a5 * A.a5)
      ⟨ak0, cov.tc1, ak1, cov.tc3, c4, ak2⟩
    else
      let ak2 :=
        Real.sqrt (A.a8 * A.a8 + A.a3 * A.a3 + A.a4 * A.a4 + A.a5 * A.a5)
      ⟨ak0, cov.tc1, ak1, cov.tc3, cov.tc4, ak2⟩

/-- `calculateHitWithCovariance` (CovarianceVoxel.h lines 194-259).  Returns
the updated packed covariance, the updated occupancy value, and the
`initialised_covariance` flag. -/
noncomputable def calculateHitWithCovariance (cov_voxel : CovarianceVoxel)
    (voxel_value : ℝ) (sample voxel_mean : V3) (point_count : ℕ)
    (hit_value uninitialised_value sensor_noise reinitialise_threshold : ℝ)
    (reinitialise_sample_count : ℕ) : CovarianceVoxel × ℝ × Bool :=
  let initial_value := voxel_value
  let was_uncertain := initial_value = uninitialised_value
  if was_uncertain ∨ point_count = 0 ∨
      (initial_value < reinitialise_threshold ∧
        reinitialise_sample_count ≤ point_count) then
    -- Transitioned to occupied. Initialise.
    let cov1 := initialiseCovariance sensor_noise
    (covGramSchmidt cov1 point_count (sample - voxel_mean), hit_value, true)
  else
    (covGramSchmidt cov_voxel point_count (sample - voxel_mean),
      voxel_value + hit_value, false)

end

/-! ### Key and region math (OccupancyMapDetail.cpp lines 27-94) -/

/-- A voxel key: per-axis region coordinate and local (in-region) voxel
coordinate.  The stored types are `i16` and `u8`; the stepping arithmetic in
`moveKeyAlongAxis` is C `int` arithmetic, modelled over `ℤ`. -/
structure Key where
  regionKey : Fin 3 → ℤ
  localKey : Fin 3 → ℤ

/-- `OccupancyMapDetail::moveKeyAlongAxis` (OccupancyMapDetail.cpp lines
27-94).  `Int.tdiv` and `Int.tmod` are the C division and remainder
(truncation toward zero). -/
def moveKeyAlongAxis (key : Key) (axis : Fin 3) (step : ℤ)
    (region_voxel_dimensions : Fin 3 → ℤ) : Key :=
  let local_limits := region_voxel_dimensions
  if step = 0 then
    -- No change.
    key
  else
    let region_key := key.regionKey
    let local_key := key.localKey
    if 0 < step then
      -- Positive step.
      let l := local_key axis + step
      let r := region_key axis + l.tdiv (local_limits axis)
      let l2 := l.tmod (local_limits axis)
      ⟨Function.update region_key axis r, Function.update local_key axis l2⟩
    else
      -- Negative step: a region step which simulates a floating point floor,
      -- then wrap a negative local coordinate to a positive one.
      let l := local_key axis + step
      let r := region_key axis +
        (l - (local_limits axis - 1)).tdiv (local_limits axis)
      let l2 :=
        if l < 0 then
          let m := local_limits axis + l.tmod (local_limits axis)
          if m = local_limits axis then 0 else m
        else l
      ⟨Function.update region_key axis r, Function.update local_key axis l2⟩

/-- Modelled from the spec: `range_between(a, b)` is the "signed voxel delta
per axis" (spec section 4.A).  `OccupancyMap::rangeBetween` itself is not
among the provided sources; per axis the signed voxel count from `a` to `b`
is the region delta scaled by the region dimension plus the local delta. -/
def rangeBetween (a b : Key) (dims : Fin 3 → ℤ) : Fin 3 → ℤ :=
  fun i => (b.regionKey i - a.regionKey i) * dims i +
    (b.localKey i - a.localKey i)

/-! ### Heightmap: occupancy classification (Heightmap.cpp, OccupancyType) -/

/-- The `ohm::OccupancyType` classification used throughout Heightmap.cpp. -/
inductive OccT where
  | kNull
  | kUnobserved
  | kFree
  | kOccupied
deriving DecidableEq, Repr

export OccT (kNull kUnobserved kFree kOccupied)

/-! ### Supporting voxel selection (Heightmap.cpp lines 399-453) -/

/-- The candidate-selection logic of `findNearestSupportingVoxel`
(Heightmap.cpp lines 419-452), applied to the results of the two
`findNearestSupportingVoxel2` searches.  `offset_below` and `offset_above`
are the step counts reported by the downward and upward searches (negative
when a search failed, as in the source); `virtual_below0` and `virtual_above`
are their virtual-surface flags.  Returns `true` when the voxel below is
selected and `false` when the voxel above is selected. -/
def selectSupportingVoxel (offset_below offset_above : ℤ)
    (virtual_below0 virtual_above : Bool)
    (clearance_voxel_count_permissive : ℤ)
    (promote_virtual_below : Bool) : Bool :=
  let have_candidate_below := decide (0 ≤ offset_below)
  let have_candidate_above := decide (0 ≤ offset_above)
  -- Ignore the fact that the voxel below is virtual when promoting it.
  let virtual_below := have_candidate_below && virtual_below0 &&
    !promote_virtual_below
  if have_candidate_below && virtual_above && !virtual_below then
    true
  else if have_candidate_above && !virtual_above && virtual_below then
    false
  else if have_candidate_below && virtual_above && virtual_below then
    true
  else if have_candidate_below &&
      (!have_candidate_above || decide (offset_below ≤ offset_above) ||
        (have_candidate_below && have_candidate_above && !virtual_above &&
          decide (clearance_voxel_count_permissive ≤
            offset_below + offset_above))) then
    true
  else
    false

/-! ### Ground search (Heightmap.cpp lines 471-551) -/

/-- The value `std::numeric_limits<double>::max()` used to initialise
`column_height` and `column_clearance_height` in `findGround`.  The initial
value is never read before both variables are overwritten. -/
def doubleMax : ℚ :=
  (2 - (1 / 2 ^ 52)) * 2 ^ 1023

/-- The mutable loop state of `findGround` (Heightmap.cpp lines 476-540). -/
structure GroundState where
  candidate : OccT
  groundKey : Option ℕ
  columnHeight : ℚ
  columnClearanceHeight : ℚ
  lastType : OccT
  height : ℚ
deriving DecidableEq, Repr

/-- The column walk of `findGround` (Heightmap.cpp lines 493-540).  The walked
keys are reindexed by step number: the voxel visited at step `n` has
occupancy classification `T n` (from `sourceVoxelHeight`, line 499) and
height `H n` (the dot product of the voxel position with the up axis).
`fuel` counts the remaining in-bounds steps, so the walk visits steps
`n, n + 1, ..., n + fuel - 1`; an early `break` is modelled by returning the
current state. -/
def findGroundLoop (T : ℕ → OccT) (H : ℕ → ℚ) (generate_virtual_surface : Bool)
    (min_clearance : ℚ) : (n fuel : ℕ) → GroundState → GroundState
  | _, 0, s => s
  | n, fuel + 1, s =>
    let height := H n
    let voxel_type := T n
    let last_is_unobserved := s.lastType = kUnobserved ∨ s.lastType = kNull
    if voxel_type = kOccupied ∨
        (generate_virtual_surface ∧ last_is_unobserved ∧
          voxel_type = kFree ∧ s.candidate = kNull) then
      if s.candidate ≠ kNull then
        -- A candidate exists: record the clearance height and test it.
        if min_clearance ≤ height - s.columnHeight then
          -- Sufficient clearance: break with the ground found.
          { s with columnClearanceHeight := height, height := height }
        else
          -- Insufficient clearance: the current voxel becomes the new base.
          findGroundLoop T H generate_virtual_surface min_clearance (n + 1) fuel
            { candidate := voxel_type, groundKey := some n,
              columnHeight := height, columnClearanceHeight := height,
              lastType := voxel_type, height := height }
      else
        -- First candidate voxel in the column.
        findGroundLoop T H generate_virtual_surface min_clearance (n + 1) fuel
          { candidate := voxel_type, groundKey := some n,
            columnHeight := height, columnClearanceHeight := height,
            lastType := voxel_type, height := height }
    else
      findGroundLoop T H generate_virtual_surface min_clearance (n + 1) fuel
        { s with lastType := voxel_type, height := height }

/-- `findGround` (Heightmap.cpp lines 471-551) over a column of `steps`
bounded voxels.  On success returns the ground key (step index), the height
output and the clearance output `column_clearance_height - column_height`. -/
def findGround (T : ℕ → OccT) (H : ℕ → ℚ) (generate_virtual_surface : Bool)
    (min_clearance : ℚ) (steps : ℕ) : Option (Option ℕ × ℚ × ℚ) :=
  let s := findGroundLoop T H generate_virtual_surface min_clearance 0 steps
    ⟨kNull, none, doubleMax, doubleMax, kNull, 0⟩
  if s.candidate ≠ kNull then
    some (s.groundKey, s.height, s.columnClearanceHeight - s.columnHeight)
  else
    none

/-! ### Heightmap writes (Heightmap.cpp lines 996-1047, Heightmap.h 86-92) -/

/-- `Heightmap::kHeightmapSurfaceValue` (Heightmap.h line 87). -/
def kHeightmapSurfaceValue : ℚ := 1

/-- `Heightmap::kHeightmapVirtualSurfaceValue` (Heightmap.h line 90). -/
def kHeightmapVirtualSurfaceValue : ℚ := -1

/-- `Heightmap::kHeightmapVacantValue` (Heightmap.h line 92). -/
def kHeightmapVacantValue : ℚ := 0

/-- One iteration of the column loop of `buildHeightmapT` restricted to its
occupancy-layer effect (Heightmap.cpp lines 998-1017): given the occupancy
classification of the selected ground voxel and the target heightmap key, the
surface marker is written exactly when the voxel is occupied or virtual
surfaces are enabled, and the voxel type is neither unobserved nor null. -/
def writeHeightmapVoxel {α : Type} [DecidableEq α]
    (generate_virtual_surface : Bool) (m : α → ℚ)
    (voxel_type : OccT) (hm_key : α) : α → ℚ :=
  if voxel_type = kOccupied ∨ generate_virtual_surface then
    let surface_value :=
      if voxel_type = kOccupied then kHeightmapSurfaceValue
      else kHeightmapVirtualSurfaceValue
    if voxel_type ≠ kUnobserved ∧ voxel_type ≠ kNull then
      Function.update m hm_key surface_value
    else
      m
  else
    m

/-- The occupancy layer produced by `buildHeightmapT` (Heightmap.cpp lines
903-1051): the heightmap is cleared (every voxel at the unobserved sentinel,
line 914), then the column loop performs one `writeHeightmapVoxel` per
visited column.  The per-column ground search results are abstracted as the
list of `(voxel_type, hm_key)` pairs reaching the write step. -/
def buildHeightmapOccupancy {α : Type} [DecidableEq α]
    (generate_virtual_surface : Bool) (unobserved_value : ℚ)
    (visits : List (OccT × α)) : α → ℚ :=
  visits.foldl
    (fun m v => writeHeightmapVoxel generate_virtual_surface m v.1 v.2)
    (fun _ => unobserved_value)

/-! ### Version-0 chunk load (MapSerialiseV0.cpp lines 71-122) -/

/-- Serialisation error codes of MapSerialise.h used by `v0::loadChunk`. -/
inductive SerialiseErr where
  | kSeValueOverflow
  | kSeFileReadFailure
deriving DecidableEq, Repr

/-- The voxel-data part of `v0::loadChunk` (MapSerialiseV0.cpp lines 95-121).
`dims` is `detail.region_voxel_dimensions`; `data` is the float content the
stream can still deliver.  The legacy block stores `2 * node_count` floats
interleaving occupancy and clearance; `node_data` is a zero-initialised
vector filled by the (possibly short) read.  Returns the error result
together with the occupancy and clearance buffers (the source writes the
buffers even when the read came up short; it returns before writing on the
overflow path). -/
def v0LoadChunk (dims : ℕ × ℕ × ℕ) (data : List ℚ)
    (occupancy_buffer clearance_buffer : ℕ → ℚ) :
    Option SerialiseErr × (ℕ → ℚ) × (ℕ → ℚ) :=
  let node_count := dims.1 * dims.2.1 * dims.2.2
  let node_byte_count := 2 * 4 * node_count
  if node_byte_count % 2 ^ 32 ≠ node_byte_count then
    (some SerialiseErr.kSeValueOverflow, occupancy_buffer, clearance_buffer)
  else
    let node_data := fun i : ℕ => if i < 2 * node_count then data.getD i 0 else 0
    let occ := fun i : ℕ =>
      if i < node_count then node_data (2 * i + 0) else occupancy_buffer i
    let clr := fun i : ℕ =>
      if i < node_count then node_data (2 * i + 1) else clearance_buffer i
    if 2 * node_count ≤ data.length then (none, occ, clr)
    else (some SerialiseErr.kSeFileReadFailure, occ, clr)

/-! ### Incident normal update (VoxelIncidentCompute.h lines 88-102) -/

section
open scoped Classical

/-- `updateIncidentNormalV3` (VoxelIncidentCompute.h lines 88-102) over exact
real arithmetic. -/
noncomputable def updateIncidentNormalV3 (normal incident_ray : V3)
    (point_count : ℕ) : V3 :=
  -- A zero stored normal forces an initialisation pass regardless of count.
  let point_count2 : ℕ :=
    if (normal.x ≠ 0 ∨ normal.y ≠ 0 ∨ normal.z ≠ 0) ∧ point_count ≠ 0 then
      point_count
    else 0
  let one_on_count_plus_one : ℝ := 1 / ((point_count2 : ℝ) + 1)
  let normal_length_2 := incident_ray.x * incident_ray.x +
    incident_ray.y * incident_ray.y + incident_ray.z * incident_ray.z
  let incident_ray2 :=
    (if normal_length_2 > 1e-6 then 1 / Real.sqrt normal_length_2 else 0) •
      incident_ray
  let n2 : V3 :=
    ⟨normal.x + (incident_ray2.x - normal.x) * one_on_count_plus_one,
     normal.y + (incident_ray2.y - normal.y) * one_on_count_plus_one,
     normal.z + (incident_ray2.z - normal.z) * one_on_count_plus_one⟩
  let normal_length_2b := n2.x * n2.x + n2.y * n2.y + n2.z * n2.z
  (if normal_length_2b > 1e-6 then 1 / Real.sqrt normal_length_2b else 0) • n2

end

/-! ## Helper lemmas -/

theorem V3.add_def (a b : V3) :
    a + b = ⟨a.x + b.x, a.y + b.y, a.z + b.z⟩ := rfl

theorem V3.sub_def (a b : V3) :
    a - b = ⟨a.x - b.x, a.y - b.y, a.z - b.z⟩ := rfl

theorem V3.smul_def (s : ℝ) (v : V3) :
    s • v = ⟨s * v.x, s * v.y, s * v.z⟩ := rfl

theorem V3.zero_def : (0 : V3) = ⟨0, 0, 0⟩ := rfl

theorem covlength2_def (v : V3) :
    covlength2 v = v.x * v.x + v.y * v.y + v.z * v.z := rfl

theorem covlength2_smul (c : ℝ) (v : V3) :
    covlength2 (c • v) = c * c * covlength2 v := by
  simp only [covlength2_def, V3.smul_def]
  ring

theorem smul_zero_V3 (w : V3) : (0 : ℝ) • w = 0 := by
  simp [V3.smul_def, V3.zero_def]

theorem sqrt_four : Real.sqrt 4 = 2 := by
  rw [show (4 : ℝ) = 2 ^ 2 by norm_num, Real.sqrt_sq (by norm_num : (0:ℝ) ≤ 2)]

theorem sqrt_sixteen : Real.sqrt 16 = 4 := by
  rw [show (16 : ℝ) = 4 ^ 2 by norm_num,
    Real.sqrt_sq (by norm_num : (0:ℝ) ≤ 4)]

theorem covlength2_unit_rescale (w : V3)
    (h : w.x * w.x + w.y * w.y + w.z * w.z > 1e-6) :
    covlength2 ((1 / Real.sqrt (w.x * w.x + w.y * w.y + w.z * w.z)) • w) =
      1 := by
  have hL : (0 : ℝ) < w.x * w.x + w.y * w.y + w.z * w.z :=
    lt_trans (by norm_num) h
  rw [covlength2_smul, covlength2_def, div_mul_div_comm, one_mul,
    Real.mul_self_sqrt hL.le]
  field_simp

theorem rescale_unit_or_zero (w : V3) :
    (if w.x * w.x + w.y * w.y + w.z * w.z > 1e-6 then
        1 / Real.sqrt (w.x * w.x + w.y * w.y + w.z * w.z) else (0:ℝ)) • w =
      0 ∨
    covlength2 ((if w.x * w.x + w.y * w.y + w.z * w.z > 1e-6 then
        1 / Real.sqrt (w.x * w.x + w.y * w.y + w.z * w.z) else (0:ℝ)) • w) =
      1 := by
  split_ifs with h
  · exact Or.inr (covlength2_unit_rescale w h)
  · exact Or.inl (smul_zero_V3 w)

theorem covGramSchmidt_tc0 (cov : CovarianceVoxel) (count : ℕ) (s2m : V3) :
    (covGramSchmidt cov count s2m).tc0 =
      Real.sqrt ((unpackCovariance cov count s2m).a6 *
          (unpackCovariance cov count s2m).a6 +
        (unpackCovariance cov count s2m).a0 *
          (unpackCovariance cov count s2m).a0) := by
  unfold covGramSchmidt
  dsimp only
  split_ifs <;> rfl

theorem tdiv_nonpos_eq (x d : ℤ) (hx : x ≤ 0) (hd : 0 ≤ d) :
    x.tdiv d = -((-x) / d) := by
  conv_lhs => rw [show x = -(-x) by ring]
  rw [Int.neg_tdiv, Int.tdiv_eq_ediv (by omega) hd]

theorem tmod_nonpos_eq (x d : ℤ) (hx : x ≤ 0) (hd : 0 ≤ d) :
    x.tmod d = -((-x) % d) := by
  have h1 := Int.tdiv_add_tmod x d
  rw [tdiv_nonpos_eq x d hx hd] at h1
  have h2 := Int.ediv_add_emod (-x) d
  linear_combination h1 + h2

theorem writeHeightmapVoxel_value {α : Type} [DecidableEq α] (gv : Bool)
    (m : α → ℚ) (t : OccT) (hk : α) (unobs : ℚ) (k : α)
    (hm : m k = 1 ∨ m k = -1 ∨ m k = 0 ∨ m k = unobs) :
    writeHeightmapVoxel gv m t hk k = 1 ∨
    writeHeightmapVoxel gv m t hk k = -1 ∨
    writeHeightmapVoxel gv m t hk k = 0 ∨
    writeHeightmapVoxel gv m t hk k = unobs := by
  unfold writeHeightmapVoxel
  dsimp only
  by_cases h1 : t = kOccupied ∨ gv = true
  · rw [if_pos h1]
    by_cases h2 : t ≠ kUnobserved ∧ t ≠ kNull
    · rw [if_pos h2, Function.update_apply]
      by_cases h3 : k = hk
      · rw [if_pos h3]
        by_cases h4 : t = kOccupied
        · rw [if_pos h4]
          exact Or.inl rfl
        · rw [if_neg h4]
          exact Or.inr (Or.inl rfl)
      · rw [if_neg h3]
        exact hm
    · rw [if_neg h2]
      exact hm
  · rw [if_neg h1]
    exact hm

theorem buildHeightmapOccupancy_fold {α : Type} [DecidableEq α] (gv : Bool)
    (unobs : ℚ) :
    ∀ (visits : List (OccT × α)) (m : α → ℚ),
      (∀ k, m k = 1 ∨ m k = -1 ∨ m k = 0 ∨ m k = unobs) →
      ∀ k,
        (visits.foldl (fun m v => writeHeightmapVoxel gv m v.1 v.2) m) k =
          1 ∨
        (visits.foldl (fun m v => writeHeightmapVoxel gv m v.1 v.2) m) k =
          -1 ∨
        (visits.foldl (fun m v => writeHeightmapVoxel gv m v.1 v.2) m) k =
          0 ∨
        (visits.foldl (fun m v => writeHeightmapVoxel gv m v.1 v.2) m) k =
          unobs
  | [], _, hm, k => hm k
  | v :: rest, m, hm, k =>
    buildHeightmapOccupancy_fold gv unobs rest _
      (fun k2 => writeHeightmapVoxel_value gv m v.1 v.2 unobs k2 (hm k2)) k

/-- Loop invariant for `findGroundLoop` once a candidate voxel is held: the
ground key, column height and the no-occupied-voxel-above property are
carried up to either exhaustion of the walk or a clearance break at the
first occupied voxel above the ground. -/
theorem findGroundLoop_started (T : ℕ → OccT) (H : ℕ → ℚ) (gv : Bool)
    (mc : ℚ) :
    ∀ (fuel n : ℕ) (s : GroundState) (gk : ℕ),
      s.candidate ≠ kNull →
      s.groundKey = some gk →
      s.columnHeight = H gk →
      s.columnClearanceHeight = H gk →
      gk < n →
      (∀ i, gk < i → i < n → T i ≠ kOccupied) →
      (findGroundLoop T H gv mc n fuel s).candidate ≠ kNull ∧
      ∃ gk2, (findGroundLoop T H gv mc n fuel s).groundKey = some gk2 ∧
        (findGroundLoop T H gv mc n fuel s).columnHeight = H gk2 ∧
        gk2 < n + fuel ∧
        (((findGroundLoop T H gv mc n fuel s).columnClearanceHeight =
            H gk2 ∧
            ∀ i, gk2 < i → i < n + fuel → T i ≠ kOccupied) ∨
          (∃ j, gk2 < j ∧ j < n + fuel ∧ T j = kOccupied ∧
            (∀ i, gk2 < i → i < j → T i ≠ kOccupied) ∧
            (findGroundLoop T H gv mc n fuel s).columnClearanceHeight =
              H j ∧
            mc ≤ H j - H gk2))
  | 0, n, s, gk => by
    intro hc hg hch hcch hlt hocc
    refine ⟨hc, gk, hg, hch, by omega, Or.inl ⟨hcch, ?_⟩⟩
    intro i h1 h2
    exact hocc i h1 (by omega)
  | fuel + 1, n, s, gk => by
    intro hc hg hch hcch hlt hocc
    rw [findGroundLoop]
    by_cases hcond : T n = kOccupied ∨
        (gv = true ∧ (s.lastType = kUnobserved ∨ s.lastType = kNull) ∧
          T n = kFree ∧ s.candidate = kNull)
    · have hTocc : T n = kOccupied := by
        rcases hcond with h | h
        · exact h
        · exact absurd h.2.2.2 hc
      rw [if_pos hcond, if_pos hc]
      by_cases hclear : mc ≤ H n - s.columnHeight
      · rw [if_pos hclear]
        refine ⟨hc, gk, hg, hch, by omega, Or.inr ⟨n, hlt, by omega, hTocc,
          ?_, rfl, ?_⟩⟩
        · intro i h1 h2
          exact hocc i h1 h2
        · rw [hch] at hclear
          exact hclear
      · rw [if_neg hclear]
        have hres := findGroundLoop_started T H gv mc fuel (n + 1)
          ⟨T n, some n, H n, H n, T n, H n⟩ n
          (by rw [hTocc]; intro h; cases h) rfl rfl rfl (by omega)
          (by intro i h1 h2; omega)
        have harith : n + 1 + fuel = n + (fuel + 1) := by omega
        rw [harith] at hres
        exact hres
    · rw [if_neg hcond]
      have hTnocc : T n ≠ kOccupied := fun h => hcond (Or.inl h)
      have hres := findGroundLoop_started T H gv mc fuel (n + 1)
        { s with lastType := T n, height := H n } gk hc hg hch hcch (by omega)
        (by
          intro i h1 h2
          rcases Nat.lt_or_ge i n with h3 | h3
          · exact hocc i h1 h3
          · have h4 : i = n := by omega
            rw [h4]
            exact hTnocc)
      have harith : n + 1 + fuel = n + (fuel + 1) := by omega
      rw [harith] at hres
      exact hres

/-- Loop behaviour of `findGroundLoop` before any candidate is found:
either no candidate is ever found, or the invariant of
`findGroundLoop_started` holds from the first candidate on. -/
theorem findGroundLoop_fromNull (T : ℕ → OccT) (H : ℕ → ℚ) (gv : Bool)
    (mc : ℚ) :
    ∀ (fuel n : ℕ) (s : GroundState),
      s.candidate = kNull →
      (findGroundLoop T H gv mc n fuel s).candidate = kNull ∨
      ((findGroundLoop T H gv mc n fuel s).candidate ≠ kNull ∧
        ∃ gk2, (findGroundLoop T H gv mc n fuel s).groundKey = some gk2 ∧
          (findGroundLoop T H gv mc n fuel s).columnHeight = H gk2 ∧
          gk2 < n + fuel ∧
          ((((findGroundLoop T H gv mc n fuel s).columnClearanceHeight =
              H gk2) ∧
              ∀ i, gk2 < i → i < n + fuel → T i ≠ kOccupied) ∨
            (∃ j, gk2 < j ∧ j < n + fuel ∧ T j = kOccupied ∧
              (∀ i, gk2 < i → i < j → T i ≠ kOccupied) ∧
              (findGroundLoop T H gv mc n fuel s).columnClearanceHeight =
                H j ∧
              mc ≤ H j - H gk2)))
  | 0, _, s => by
    intro hc
    exact Or.inl hc
  | fuel + 1, n, s => by
    intro hc
    rw [findGroundLoop]
    by_cases hcond : T n = kOccupied ∨
        (gv = true ∧ (s.lastType = kUnobserved ∨ s.lastType = kNull) ∧
          T n = kFree ∧ s.candidate = kNull)
    · rw [if_pos hcond, if_neg (fun h : s.candidate ≠ kNull => h hc)]
      have hTnn : T n ≠ kNull := by
        rcases hcond with h | h
        · rw [h]; intro h2; cases h2
        · rw [h.2.2.1]; intro h2; cases h2
      have hres := findGroundLoop_started T H gv mc fuel (n + 1)
        ⟨T n, some n, H n, H n, T n, H n⟩ n hTnn rfl rfl rfl (by omega)
        (by intro i h1 h2; omega)
      have harith : n + 1 + fuel = n + (fuel + 1) := by omega
      rw [harith] at hres
      exact Or.inr hres
    · rw [if_neg hcond]
      have hres := findGroundLoop_fromNull T H gv mc fuel (n + 1)
        { s with lastType := T n, height := H n } hc
      have harith : n + 1 + fuel = n + (fuel + 1) := by omega
      rw [harith] at hres
      exact hres

/-! ## Claim theorems -/

/-- C1 (amended): in `calculateHitWithCovariance` the covariance is reset
exactly when one of the triggers holds — the voxel value equals the
unobserved sentinel, or the sample count is zero, or the value is below
`reinitialise_threshold` with at least `reinitialise_sample_count` samples —
and the reset initialises the packed covariance to the squared sensor noise
times the identity (`sensor_noise² · I`, not `sensor_noise · I`) before the
Gram-Schmidt update; in every other case the previous covariance is carried
into the Gram-Schmidt update unchanged. -/
theorem calculateHitWithCovariance_reset_iff (cov_voxel : CovarianceVoxel)
    (voxel_value : ℝ) (sample voxel_mean : V3) (point_count : ℕ)
    (hit_value uninitialised_value sensor_noise reinitialise_threshold : ℝ)
    (reinitialise_sample_count : ℕ) :
    ((calculateHitWithCovariance cov_voxel voxel_value sample voxel_mean
        point_count hit_value uninitialised_value sensor_noise
        reinitialise_threshold reinitialise_sample_count).2.2 = true ↔
      (voxel_value = uninitialised_value ∨ point_count = 0 ∨
        (voxel_value < reinitialise_threshold ∧
          reinitialise_sample_count ≤ point_count))) ∧
    ((voxel_value = uninitialised_value ∨ point_count = 0 ∨
        (voxel_value < reinitialise_threshold ∧
          reinitialise_sample_count ≤ point_count)) →
      (calculateHitWithCovariance cov_voxel voxel_value sample voxel_mean
          point_count hit_value uninitialised_value sensor_noise
          reinitialise_threshold reinitialise_sample_count).1 =
        covGramSchmidt
          ⟨sensor_noise * sensor_noise, 0, sensor_noise * sensor_noise, 0, 0,
            sensor_noise * sensor_noise⟩
          point_count (sample - voxel_mean)) ∧
    (¬(voxel_value = uninitialised_value ∨ point_count = 0 ∨
        (voxel_value < reinitialise_threshold ∧
          reinitialise_sample_count ≤ point_count)) →
      (calculateHitWithCovariance cov_voxel voxel_value sample voxel_mean
          point_count hit_value uninitialised_value sensor_noise
          reinitialise_threshold reinitialise_sample_count).1 =
        covGramSchmidt cov_voxel point_count (sample - voxel_mean)) := by
  unfold calculateHitWithCovariance
  dsimp only
  by_cases htrig : voxel_value = uninitialised_value ∨ point_count = 0 ∨
      (voxel_value < reinitialise_threshold ∧
        reinitialise_sample_count ≤ point_count)
  · rw [if_pos htrig]
    exact ⟨by simp [htrig], fun _ => rfl, fun hn => absurd htrig hn⟩
  · rw [if_neg htrig]
    exact ⟨by simp [htrig], fun h => absurd h htrig, fun _ => rfl⟩

/-- C1 witness: the reset trigger equivalence evaluated at a concrete
input with no trigger firing. -/
theorem calculateHitWithCovariance_reset_iff_witness :
    (calculateHitWithCovariance ⟨1, 0, 1, 0, 0, 1⟩ 5 ⟨1, 2, 3⟩ ⟨0, 0, 0⟩ 3
        0.85 (-100) 0.05 (-2) 10).2.2 = true ↔
      ((5 : ℝ) = -100 ∨ (3 : ℕ) = 0 ∨ ((5 : ℝ) < -2 ∧ 10 ≤ 3)) :=
  (calculateHitWithCovariance_reset_iff ⟨1, 0, 1, 0, 0, 1⟩ 5 ⟨1, 2, 3⟩
    ⟨0, 0, 0⟩ 3 0.85 (-100) 0.05 (-2) 10).1

/-- C1 counterexample: the claim as stated resets the packed covariance to
`sensor_noise · I`.  At `sensor_noise = 2` with a firing trigger the code
feeds `sensor_noise² · I = 4 · I` to the Gram-Schmidt update, not `2 · I`:
the resulting `tc0` entry is `4`, not `2`. -/
theorem calculateHitWithCovariance_noise_counterexample :
    ((calculateHitWithCovariance ⟨3, 3, 3, 3, 3, 3⟩ (-100) ⟨0, 0, 0⟩
        ⟨0, 0, 0⟩ 0 0.85 (-100) 2 (-2) 10).2.2 = true) ∧
    (calculateHitWithCovariance ⟨3, 3, 3, 3, 3, 3⟩ (-100) ⟨0, 0, 0⟩
        ⟨0, 0, 0⟩ 0 0.85 (-100) 2 (-2) 10).1 ≠
      covGramSchmidt ⟨2, 0, 2, 0, 0, 2⟩ 0 (⟨0, 0, 0⟩ - ⟨0, 0, 0⟩) := by
  constructor
  · unfold calculateHitWithCovariance
    rw [if_pos (Or.inl rfl)]
  · intro h
    have h0 := congrArg CovarianceVoxel.tc0 h
    have hlhs : (calculateHitWithCovariance ⟨3, 3, 3, 3, 3, 3⟩ (-100)
        ⟨0, 0, 0⟩ ⟨0, 0, 0⟩ 0 0.85 (-100) 2 (-2) 10).1 =
        covGramSchmidt (initialiseCovariance 2) 0 (⟨0, 0, 0⟩ - ⟨0, 0, 0⟩) := by
      unfold calculateHitWithCovariance
      rw [if_pos (Or.inl rfl)]
    rw [hlhs, covGramSchmidt_tc0, covGramSchmidt_tc0] at h0
    simp only [unpackCovariance, initialiseCovariance, V3.sub_def] at h0
    norm_num [Real.sqrt_zero, sqrt_sixteen, sqrt_four] at h0

/-- C2 (amended): in `calculateMissNdt`, when the voxel is not unobserved
and the sample count is below `sample_threshold`, the standard miss rule is
applied: `miss_value` is added to the voxel value and the voxel mean is
returned.  The free/occupied status of the voxel is not consulted. -/
theorem calculateMissNdt_standard_rule (cov_voxel : CovarianceVoxel)
    (voxel_value : ℝ) (sensor sample voxel_mean : V3) (point_count : ℕ)
    (uninitialised_value miss_value sensor_noise : ℝ) (sample_threshold : ℕ)
    (hval : voxel_value ≠ uninitialised_value)
    (hcount : point_count < sample_threshold) :
    calculateMissNdt cov_voxel voxel_value sensor sample voxel_mean
        point_count uninitialised_value miss_value sensor_noise
        sample_threshold =
      (voxel_value + miss_value, voxel_mean) := by
  unfold calculateMissNdt
  rw [if_neg hval, if_pos hcount]

/-- C2 witness: the standard miss rule at a concrete input. -/
theorem calculateMissNdt_standard_rule_witness :
    calculateMissNdt ⟨1, 0, 1, 0, 0, 1⟩ 1 ⟨0, 0, 0⟩ ⟨1, 0, 0⟩ ⟨0, 0, 0⟩ 0
        (-100) (-0.4) 0.05 1 =
      (1 + -0.4, ⟨0, 0, 0⟩) :=
  calculateMissNdt_standard_rule ⟨1, 0, 1, 0, 0, 1⟩ 1 ⟨0, 0, 0⟩ ⟨1, 0, 0⟩
    ⟨0, 0, 0⟩ 0 (-100) (-0.4) 0.05 1 (by norm_num) (by norm_num)

/-- C2 counterexample: a free voxel (occupancy `-1`, below a `0` occupancy
threshold) with sample count `5` at or above `sample_threshold = 3` does not
receive the standard miss rule: the geometry is chosen so the NDT adjustment
is zero (`x_ML = sample`), hence the result is `-1` and not
`-1 + miss_value = -2`. -/
theorem calculateMissNdt_free_counterexample :
    ((-1 : ℝ) < 0) ∧
    (calculateMissNdt ⟨1, 0, 1, 0, 0, 1⟩ (-1) ⟨0, 0, 0⟩ ⟨2, 0, 0⟩ ⟨2, 0, 0⟩ 5
        (-100) (-1) 1 3).1 ≠ -1 + -1 := by
  refine ⟨by norm_num, ?_⟩
  have hres : (calculateMissNdt ⟨1, 0, 1, 0, 0, 1⟩ (-1) ⟨0, 0, 0⟩ ⟨2, 0, 0⟩
      ⟨2, 0, 0⟩ 5 (-100) (-1) 1 3).1 = -1 := by
    unfold calculateMissNdt
    rw [if_neg (by norm_num), if_neg (by norm_num)]
    dsimp only
    simp only [V3.sub_def, V3.add_def, V3.smul_def, covnormalize, covlength2,
      covdot, solveTriangular]
    norm_num [sqrt_four]
  rw [hres]
  norm_num

/-- C3: in the covariance branch of `calculateMissNdt` (voxel not
unobserved, sample count at least `sample_threshold`), the occupancy
increment is `log (Δp / (1 - Δp))` with `Δp = 0.5 - scale · p₁ · (1 - p₂)`,
`scale = 1 - 1 / (1 + exp miss_value)`, `p₁` the Gaussian density term at
the maximum-likelihood point `x_ML = sensor + t · ℓ`,
`t = -(a · b) / (a · a)` for `a = C⁻¹ℓ`, `b = C⁻¹(sensor - μ)` via
triangular solves, and `p₂` the sensor-noise Gaussian at the sample. -/
theorem calculateMissNdt_ndt_formula (cov_voxel : CovarianceVoxel)
    (voxel_value : ℝ) (sensor sample voxel_mean : V3) (point_count : ℕ)
    (uninitialised_value miss_value sensor_noise : ℝ) (sample_threshold : ℕ)
    (hval : voxel_value ≠ uninitialised_value)
    (hcount : sample_threshold ≤ point_count) :
    (calculateMissNdt cov_voxel voxel_value sensor sample voxel_mean
        point_count uninitialised_value miss_value sensor_noise
        sample_threshold).1 =
      (let l := covnormalize (sample - sensor)
       let a := solveTriangular cov_voxel l
       let b := solveTriangular cov_voxel (sensor - voxel_mean)
       let t := -(covdot a b) / covdot a a
       let x_ml := t • l + sensor
       let p1 := Real.exp (-0.5 *
         covlength2 (solveTriangular cov_voxel (x_ml - voxel_mean)))
       let p2 := Real.exp (-0.5 * covlength2 (x_ml - sample) /
         (sensor_noise * sensor_noise))
       let scale := 1 - 1 / (1 + Real.exp miss_value)
       let dp := 0.5 - scale * p1 * (1 - p2)
       voxel_value + Real.log (dp / (1 - dp))) := by
  unfold calculateMissNdt
  rw [if_neg hval, if_neg (Nat.not_lt.mpr hcount)]

/-- C3 witness: the NDT probability-adjustment formula at a concrete
input. -/
theorem calculateMissNdt_ndt_formula_witness :
    (calculateMissNdt ⟨1, 0, 1, 0, 0, 1⟩ (-1) ⟨0, 0, 0⟩ ⟨2, 0, 0⟩ ⟨2, 0, 0⟩ 5
        (-100) (-1) 1 3).1 =
      (let l := covnormalize ((⟨2, 0, 0⟩ : V3) - ⟨0, 0, 0⟩)
       let a := solveTriangular ⟨1, 0, 1, 0, 0, 1⟩ l
       let b := solveTriangular ⟨1, 0, 1, 0, 0, 1⟩
         ((⟨0, 0, 0⟩ : V3) - ⟨2, 0, 0⟩)
       let t := -(covdot a b) / covdot a a
       let x_ml := t • l + ⟨0, 0, 0⟩
       let p1 := Real.exp (-0.5 *
         covlength2 (solveTriangular ⟨1, 0, 1, 0, 0, 1⟩ (x_ml - ⟨2, 0, 0⟩)))
       let p2 := Real.exp (-0.5 * covlength2 (x_ml - ⟨2, 0, 0⟩) /
         ((1 : ℝ) * 1))
       let scale := 1 - 1 / (1 + Real.exp (-1))
       let dp := 0.5 - scale * p1 * (1 - p2)
       (-1 : ℝ) + Real.log (dp / (1 - dp))) :=
  calculateMissNdt_ndt_formula ⟨1, 0, 1, 0, 0, 1⟩ (-1) ⟨0, 0, 0⟩ ⟨2, 0, 0⟩
    ⟨2, 0, 0⟩ 5 (-100) (-1) 1 3 (by norm_num) (by norm_num)

/-- C5: stepping a key by `n` along an axis with `moveKeyAlongAxis` and
taking the per-axis signed voxel delta back to the original key yields
exactly `n`, and the resulting local coordinate always lies in
`[0, region_dim[axis])`, also for negative steps. -/
theorem moveKeyAlongAxis_range (key : Key) (axis : Fin 3) (n : ℤ)
    (dims : Fin 3 → ℤ) (hd : 0 < dims axis)
    (hl0 : 0 ≤ key.localKey axis) (hl1 : key.localKey axis < dims axis) :
    rangeBetween key (moveKeyAlongAxis key axis n dims) dims axis = n ∧
    0 ≤ (moveKeyAlongAxis key axis n dims).localKey axis ∧
    (moveKeyAlongAxis key axis n dims).localKey axis < dims axis := by
  unfold moveKeyAlongAxis rangeBetween
  by_cases h0 : n = 0
  · subst h0
    rw [if_pos rfl]
    exact ⟨by ring, hl0, hl1⟩
  · rw [if_neg h0]
    by_cases hpos : 0 < n
    · rw [if_pos hpos]
      simp only [Function.update_same]
      have hll : 0 ≤ key.localKey axis + n := by omega
      rw [Int.tdiv_eq_ediv hll hd.le, Int.tmod_eq_emod hll hd.le]
      refine ⟨?_, Int.emod_nonneg _ (ne_of_gt hd), Int.emod_lt_of_pos _ hd⟩
      have hde := Int.ediv_add_emod (key.localKey axis + n) (dims axis)
      linear_combination hde
    · rw [if_neg hpos]
      simp only [Function.update_same]
      have hneg : n < 0 := by omega
      have hqq : (key.localKey axis + n - (dims axis - 1)).tdiv (dims axis) =
          -((dims axis - 1 - (key.localKey axis + n)) / dims axis) := by
        rw [show key.localKey axis + n - (dims axis - 1) =
          -(dims axis - 1 - (key.localKey axis + n)) by ring]
        rw [Int.neg_tdiv, Int.tdiv_eq_ediv (by omega) hd.le]
      rw [hqq]
      by_cases hln : key.localKey axis + n < 0
      · rw [if_pos hln]
        rw [tmod_nonpos_eq _ _ (by omega) hd.le]
        have hr0 : 0 ≤ (-(key.localKey axis + n)) % dims axis :=
          Int.emod_nonneg _ (ne_of_gt hd)
        have hr1 : (-(key.localKey axis + n)) % dims axis < dims axis :=
          Int.emod_lt_of_pos _ hd
        have hde := Int.ediv_add_emod (-(key.localKey axis + n)) (dims axis)
        by_cases hz : (-(key.localKey axis + n)) % dims axis = 0
        · have hrepr : dims axis - 1 - (key.localKey axis + n) =
              (dims axis - 1) + ((-(key.localKey axis + n)) / dims axis) *
                dims axis := by
            linear_combination -hde + hz
          rw [hrepr, Int.add_mul_ediv_right _ _ (ne_of_gt hd),
            Int.ediv_eq_zero_of_lt (by omega) (by omega), hz]
          rw [if_pos (by ring)]
          refine ⟨?_, le_refl 0, hd⟩
          linear_combination -hde + hz
        · have hrepr : dims axis - 1 - (key.localKey axis + n) =
              ((-(key.localKey axis + n)) % dims axis - 1) +
                ((-(key.localKey axis + n)) / dims axis + 1) * dims axis := by
            linear_combination -hde
          rw [hrepr, Int.add_mul_ediv_right _ _ (ne_of_gt hd),
            Int.ediv_eq_zero_of_lt (by omega) (by omega)]
          rw [if_neg (by omega)]
          refine ⟨?_, by omega, by omega⟩
          linear_combination -hde
      · rw [if_neg hln]
        rw [Int.ediv_eq_zero_of_lt (by omega) (by omega)]
        exact ⟨by ring, by omega, by omega⟩

/-- C5 witness: a concrete negative step crossing a region boundary. -/
theorem moveKeyAlongAxis_range_witness :
    (0 : ℤ) < (fun _ : Fin 3 => (4 : ℤ)) 0 ∧
    0 ≤ (⟨fun _ => 0, fun _ => 2⟩ : Key).localKey 0 ∧
    (⟨fun _ => 0, fun _ => 2⟩ : Key).localKey 0 <
      (fun _ : Fin 3 => (4 : ℤ)) 0 ∧
    (rangeBetween ⟨fun _ => 0, fun _ => 2⟩
        (moveKeyAlongAxis ⟨fun _ => 0, fun _ => 2⟩ 0 (-7) fun _ => 4)
        (fun _ => 4) 0 = -7 ∧
      0 ≤ (moveKeyAlongAxis ⟨fun _ => 0, fun _ => 2⟩ 0 (-7)
        fun _ => 4).localKey 0 ∧
      (moveKeyAlongAxis ⟨fun _ => 0, fun _ => 2⟩ 0 (-7)
        fun _ => 4).localKey 0 < (fun _ : Fin 3 => (4 : ℤ)) 0) :=
  ⟨by norm_num, by norm_num, by norm_num,
    moveKeyAlongAxis_range ⟨fun _ => 0, fun _ => 2⟩ 0 (-7) (fun _ => 4)
      (by norm_num) (by norm_num) (by norm_num)⟩

/-- C6 (amended): the candidate selection of `findNearestSupportingVoxel`
when both searches return candidates: a real candidate is preferred over a
virtual one; two virtual candidates select the lower; two real candidates
select the lower one exactly when it required no more steps or the pair is
at least `clearance_voxel_count_permissive` steps apart; and with
`promote_virtual_below` set a downward virtual candidate competes under the
same rule as a real one (it is not unconditionally preferred). -/
theorem selectSupportingVoxel_rules (offset_below offset_above : ℤ)
    (virtual_below0 virtual_above : Bool) (clearance : ℤ) (promote : Bool)
    (hb : 0 ≤ offset_below) (ha : 0 ≤ offset_above) :
    (virtual_above = true → virtual_below0 = false →
      selectSupportingVoxel offset_below offset_above virtual_below0
        virtual_above clearance promote = true) ∧
    (virtual_above = false → virtual_below0 = true → promote = false →
      selectSupportingVoxel offset_below offset_above virtual_below0
        virtual_above clearance promote = false) ∧
    (virtual_above = true → virtual_below0 = true →
      selectSupportingVoxel offset_below offset_above virtual_below0
        virtual_above clearance promote = true) ∧
    (virtual_above = false → virtual_below0 = false →
      (selectSupportingVoxel offset_below offset_above virtual_below0
          virtual_above clearance promote = true ↔
        (offset_below ≤ offset_above ∨
          clearance ≤ offset_below + offset_above))) ∧
    (virtual_above = false → virtual_below0 = true → promote = true →
      (selectSupportingVoxel offset_below offset_above virtual_below0
          virtual_above clearance promote = true ↔
        (offset_below ≤ offset_above ∨
          clearance ≤ offset_below + offset_above))) := by
  refine ⟨?_, ?_, ?_, ?_, ?_⟩
  · rintro rfl rfl
    simp [selectSupportingVoxel, hb, ha]
  · rintro rfl rfl rfl
    simp [selectSupportingVoxel, hb, ha]
  · rintro rfl rfl
    by_cases hp : promote = true
    · subst hp
      simp [selectSupportingVoxel, hb, ha]
    · rw [Bool.not_eq_true] at hp
      subst hp
      simp [selectSupportingVoxel, hb, ha]
  · rintro rfl rfl
    simp [selectSupportingVoxel, hb, ha]
  · rintro rfl rfl rfl
    simp [selectSupportingVoxel, hb, ha]

/-- C6 witness: a real candidate below is selected over a virtual candidate
above. -/
theorem selectSupportingVoxel_rules_witness :
    selectSupportingVoxel 2 1 false true 3 false = true :=
  (selectSupportingVoxel_rules 2 1 false true 3 false (by norm_num)
    (by norm_num)).1 rfl rfl

/-- C6 counterexample: with `promote_virtual_below` set, a downward virtual
candidate (offset 5) is NOT preferred over an upward real candidate
(offset 1) when the two are within the permissive clearance range (10): the
selection returns the upper real candidate. -/
theorem selectSupportingVoxel_promote_counterexample :
    (0 ≤ (5 : ℤ)) ∧ (0 ≤ (1 : ℤ)) ∧
    selectSupportingVoxel 5 1 true false 10 true = false :=
  ⟨by decide, by decide, by decide⟩

/-- C7: for every ground voxel emitted by `findGround` with clearance `c`,
either no occupied voxel strictly above it within `min_clearance` exists in
the walked column range, or `c` equals the measured height gap from the
ground voxel to the first obstructing occupied voxel above it. -/
theorem findGround_clearance (T : ℕ → OccT) (H : ℕ → ℚ) (gv : Bool)
    (mc : ℚ) (steps : ℕ) (gk : ℕ) (hout c : ℚ)
    (hres : findGround T H gv mc steps = some (some gk, hout, c)) :
    (∀ i, gk < i → i < steps → T i = kOccupied → ¬(H i - H gk < mc)) ∨
    (∃ j, gk < j ∧ j < steps ∧ T j = kOccupied ∧
      (∀ i, gk < i → i < j → T i ≠ kOccupied) ∧ c = H j - H gk ∧ mc ≤ c) := by
  unfold findGround at hres
  rcases findGroundLoop_fromNull T H gv mc steps 0
      ⟨kNull, none, doubleMax, doubleMax, kNull, 0⟩ rfl with hnull | hsome
  · rw [if_neg (fun h : _ ≠ kNull => h hnull)] at hres
    cases hres
  · obtain ⟨hcand, gk2, hg2, hch2, hlt2, hdisj⟩ := hsome
    rw [if_pos hcand] at hres
    have hinj := Option.some.inj hres
    have hgk : gk2 = gk := by
      have h1 := congrArg Prod.fst hinj
      dsimp at h1
      rw [hg2] at h1
      exact Option.some.inj h1
    subst hgk
    have hcval : (findGroundLoop T H gv mc 0 steps
        ⟨kNull, none, doubleMax, doubleMax, kNull, 0⟩).columnClearanceHeight -
        (findGroundLoop T H gv mc 0 steps
          ⟨kNull, none, doubleMax, doubleMax, kNull, 0⟩).columnHeight = c := by
      have h1 := congrArg (fun p => p.2.2) hinj
      dsimp at h1
      exact h1
    rcases hdisj with ⟨hcch, hnone⟩ | ⟨j, hj1, hj2, hjocc, hjfirst, hjcch, hjmc⟩
    · left
      intro i h1 h2 hocc
      exact absurd hocc (hnone i h1 (by omega))
    · right
      refine ⟨j, hj1, by omega, hjocc, hjfirst, ?_, ?_⟩
      · rw [← hcval, hjcch, hch2]
      · rw [← hcval, hjcch, hch2]
        exact hjmc

/-- C7 witness: an all-occupied two-voxel column with ground at step 0 and
the obstruction at step 1, five height units above: clearance 5. -/
theorem findGround_clearance_witness :
    (∀ i : ℕ, 0 < i → i < 2 → kOccupied = kOccupied →
        ¬((5 : ℚ) * i - 5 * ((0 : ℕ) : ℚ) < 2)) ∨
    (∃ j : ℕ, 0 < j ∧ j < 2 ∧ kOccupied = kOccupied ∧
      (∀ i : ℕ, 0 < i → i < j → kOccupied ≠ kOccupied) ∧
      (5 : ℚ) = 5 * (j : ℚ) - 5 * ((0 : ℕ) : ℚ) ∧ (2 : ℚ) ≤ 5) :=
  findGround_clearance (fun _ => kOccupied) (fun n => (5 : ℚ) * n) false 2 2 0
    5 5
    (by norm_num [findGround, findGroundLoop,
      (show kOccupied ≠ kNull by decide)])

/-- C8: every voxel of the occupancy layer produced by the heightmap build
holds one of the four values `+1` (real surface), `-1` (virtual surface),
`0` (vacant) or the unobserved sentinel; the build writes only `+1` and `-1`
and leaves all other voxels at the cleared unobserved value. -/
theorem buildHeightmapT_occupancy_values {α : Type} [DecidableEq α]
    (gv : Bool) (unobs : ℚ) (visits : List (OccT × α)) (k : α) :
    buildHeightmapOccupancy gv unobs visits k = kHeightmapSurfaceValue ∨
    buildHeightmapOccupancy gv unobs visits k =
      kHeightmapVirtualSurfaceValue ∨
    buildHeightmapOccupancy gv unobs visits k = kHeightmapVacantValue ∨
    buildHeightmapOccupancy gv unobs visits k = unobs :=
  buildHeightmapOccupancy_fold gv unobs visits _
    (fun _ => Or.inr (Or.inr (Or.inr rfl))) k

/-- C9: version-0 chunk loading de-interleaves the `2N`-float block so that
voxel `i` receives element `2i` in the occupancy layer and element `2i + 1`
in the clearance layer; a block byte count overflowing the 32-bit unsigned
range fails with a value-overflow error, and a short read fails with a read
error. -/
theorem v0LoadChunk_spec (dims : ℕ × ℕ × ℕ) (data : List ℚ)
    (occ0 clr0 : ℕ → ℚ) :
    (2 ^ 32 ≤ 2 * 4 * (dims.1 * dims.2.1 * dims.2.2) →
      (v0LoadChunk dims data occ0 clr0).1 =
        some SerialiseErr.kSeValueOverflow) ∧
    (2 * 4 * (dims.1 * dims.2.1 * dims.2.2) < 2 ^ 32 →
      data.length < 2 * (dims.1 * dims.2.1 * dims.2.2) →
      (v0LoadChunk dims data occ0 clr0).1 =
        some SerialiseErr.kSeFileReadFailure) ∧
    (2 * 4 * (dims.1 * dims.2.1 * dims.2.2) < 2 ^ 32 →
      2 * (dims.1 * dims.2.1 * dims.2.2) ≤ data.length →
      (v0LoadChunk dims data occ0 clr0).1 = none ∧
      ∀ i < dims.1 * dims.2.1 * dims.2.2,
        (v0LoadChunk dims data occ0 clr0).2.1 i = data.getD (2 * i) 0 ∧
        (v0LoadChunk dims data occ0 clr0).2.2 i =
          data.getD (2 * i + 1) 0) := by
  unfold v0LoadChunk
  dsimp only
  refine ⟨?_, ?_, ?_⟩
  · intro hov
    have hcond : 2 * 4 * (dims.1 * dims.2.1 * dims.2.2) % 2 ^ 32 ≠
        2 * 4 * (dims.1 * dims.2.1 * dims.2.2) := by
      have h1 := Nat.mod_lt (2 * 4 * (dims.1 * dims.2.1 * dims.2.2))
        (show 0 < 2 ^ 32 by norm_num)
      omega
    rw [if_pos hcond]
  · intro hov hshort
    have hcond : ¬(2 * 4 * (dims.1 * dims.2.1 * dims.2.2) % 2 ^ 32 ≠
        2 * 4 * (dims.1 * dims.2.1 * dims.2.2)) := by
      rw [Nat.mod_eq_of_lt hov]
      exact fun h => h rfl
    rw [if_neg hcond, if_neg (Nat.not_le.mpr hshort)]
  · intro hov hlong
    have hcond : ¬(2 * 4 * (dims.1 * dims.2.1 * dims.2.2) % 2 ^ 32 ≠
        2 * 4 * (dims.1 * dims.2.1 * dims.2.2)) := by
      rw [Nat.mod_eq_of_lt hov]
      exact fun h => h rfl
    rw [if_neg hcond, if_pos hlong]
    refine ⟨rfl, fun i hi => ⟨?_, ?_⟩⟩
    · show (if i < dims.1 * dims.2.1 * dims.2.2 then _ else _) = _
      rw [if_pos hi,
        if_pos (by omega : 2 * i + 0 < 2 * (dims.1 * dims.2.1 * dims.2.2))]
      norm_num
    · show (if i < dims.1 * dims.2.1 * dims.2.2 then _ else _) = _
      rw [if_pos hi,
        if_pos (by omega : 2 * i + 1 < 2 * (dims.1 * dims.2.1 * dims.2.2))]

/-- C9 witness: a two-voxel region loaded from a four-float block. -/
theorem v0LoadChunk_spec_witness :
    (v0LoadChunk (2, 1, 1) [10, 20, 30, 40] (fun _ => 0) (fun _ => 0)).1 =
      none ∧
    ∀ i < (2, 1, 1).1 * (2, 1, 1).2.1 * (2, 1, 1).2.2,
      (v0LoadChunk (2, 1, 1) [10, 20, 30, 40] (fun _ => 0)
        (fun _ => 0)).2.1 i = [(10 : ℚ), 20, 30, 40].getD (2 * i) 0 ∧
      (v0LoadChunk (2, 1, 1) [10, 20, 30, 40] (fun _ => 0)
        (fun _ => 0)).2.2 i = [(10 : ℚ), 20, 30, 40].getD (2 * i + 1) 0 :=
  (v0LoadChunk_spec (2, 1, 1) [10, 20, 30, 40] (fun _ => 0)
    (fun _ => 0)).2.2 (by norm_num) (by norm_num)

/-- C10: the incident-normal update returns either the exact zero vector or
a vector of squared length one; averaged results with squared length at or
below the `1e-6` threshold are mapped to zero. -/
theorem updateIncidentNormalV3_unit_or_zero (normal incident_ray : V3)
    (point_count : ℕ) :
    updateIncidentNormalV3 normal incident_ray point_count = 0 ∨
    covlength2 (updateIncidentNormalV3 normal incident_ray point_count) =
      1 := by
  unfold updateIncidentNormalV3
  exact rescale_unit_or_zero _

end OhmSpec
